import Mathlib

/-!
Verification of the `Vec` fragment of libQGLViewer (`QGLViewer/vec.cpp`).

The embedding uses exact rationals (`ℚ`) for the C++ `qreal` components:
the claims under study are about the algebraic effect of the operations,
their control flow (warnings, fallbacks) and the serialization contract,
none of which depends on rounding.  Note that in Lean `q / 0 = 0` on `ℚ`,
which stands in for the C++ unguarded floating division (the code performs
the division in all cases; only the numeric value of the degenerate case
differs between the two semantics).

`vec.cpp` is the only file of the repository available; the inline algebra
of `vec.h` (dot product, squared norm, scalar multiple, subtraction) and
`DomUtils::floatFromDom` of `domUtils.h` are modelled from the spec, as
marked on each definition.
-/

namespace QGLViewerVec

/-- Value type with three rational components named x, y, z
(`qglviewer::Vec` of `vec.h`, components modelled from the spec's data
model: three numeric fields, value semantics). -/
@[ext] structure Vec where
  x : ℚ
  y : ℚ
  z : ℚ
  deriving DecidableEq, Repr

/-- Modelled from the spec: dot product (`operator*` between two vectors,
declared inline in `vec.h`, not present under `src/`). -/
def Vec.dot (a b : Vec) : ℚ :=
  a.x * b.x + a.y * b.y + a.z * b.z

/-- Modelled from the spec: squared norm of a vector (`Vec::squaredNorm`
of `vec.h`, not present under `src/`). -/
def Vec.squaredNorm (a : Vec) : ℚ :=
  Vec.dot a a

/-- Modelled from the spec: scalar multiplication (`operator*(qreal, Vec)`
of `vec.h`, not present under `src/`). -/
def Vec.smul (t : ℚ) (a : Vec) : Vec :=
  ⟨t * a.x, t * a.y, t * a.z⟩

/-- Modelled from the spec: vector subtraction (`operator-` of `vec.h`,
not present under `src/`). -/
def Vec.sub (a b : Vec) : Vec :=
  ⟨a.x - b.x, a.y - b.y, a.z - b.z⟩

/-- The degeneracy threshold `1.0E-10` of `vec.cpp`. -/
def epsilon : ℚ :=
  1 / 10 ^ 10

/-- Effect of `Vec::projectOnAxis` on `*this` (`vec.cpp`): the assignment
`*this = (((*this)*direction) / direction.squaredNorm()) * direction`,
performed unconditionally.  This is also the release-build
(`QT_NO_DEBUG`) behavior, where the diagnostic block is compiled out. -/
def Vec.projectOnAxis (v direction : Vec) : Vec :=
  Vec.smul (Vec.dot v direction / Vec.squaredNorm direction) direction

/-- Effect of `Vec::projectOnPlane` on `*this` (`vec.cpp`): the assignment
`*this -= (((*this)*normal) / normal.squaredNorm()) * normal`, performed
unconditionally. -/
def Vec.projectOnPlane (v normal : Vec) : Vec :=
  Vec.sub v (Vec.smul (Vec.dot v normal / Vec.squaredNorm normal) normal)

/-- Debug build of `Vec::projectOnAxis` (`vec.cpp`, without `QT_NO_DEBUG`):
besides the assignment, a `qWarning` diagnostic is emitted when
`direction.squaredNorm() < 1.0E-10`.  The second component records the
emitted diagnostics; each diagnostic carries the offending direction's
squared norm (the C++ message prints `direction.norm()`, its square
root). -/
def Vec.projectOnAxisDebug (v direction : Vec) : Vec × List ℚ :=
  (Vec.projectOnAxis v direction,
   if Vec.squaredNorm direction < epsilon then [Vec.squaredNorm direction] else [])

/-- Debug build of `Vec::projectOnPlane` (`vec.cpp`, without
`QT_NO_DEBUG`); same diagnostic convention as `projectOnAxisDebug`. -/
def Vec.projectOnPlaneDebug (v normal : Vec) : Vec × List ℚ :=
  (Vec.projectOnPlane v normal,
   if Vec.squaredNorm normal < epsilon then [Vec.squaredNorm normal] else [])

/-- Attributed tree node: a tag name and an ordered list of string
attributes (`QDomElement`, restricted to the attribute interface this
fragment uses).  Attribute lookup is by name, not position. -/
structure QDomElement where
  tag : String
  attrs : List (String × String)
  deriving DecidableEq, Repr

/-- Attribute lookup by name (`QDomElement::attribute`): the value of the
first attribute with the given name, or `none` when absent. -/
def QDomElement.attr (e : QDomElement) (name : String) : Option String :=
  (e.attrs.find? (fun p => p.1 == name)).map (fun p => p.2)

/-- Setting an attribute (`QDomElement::setAttribute`): replaces the value
of an existing attribute of that name, otherwise appends a new one. -/
def QDomElement.setAttr (e : QDomElement) (name value : String) : QDomElement :=
  if e.attrs.any (fun p => p.1 == name) then
    ⟨e.tag, e.attrs.map (fun p => if p.1 == name then (name, value) else p)⟩
  else
    ⟨e.tag, e.attrs ++ [(name, value)]⟩

/-- Document factory (`QDomDocument`), of which this fragment only uses
`createElement`. -/
structure QDomDocument where
  docName : String
  deriving DecidableEq, Repr

/-- Element creation (`QDomDocument::createElement`): a fresh element with
the given tag name and no attributes. -/
def QDomDocument.createElement (document : QDomDocument) (name : String) :
    QDomElement :=
  ⟨name, []⟩

/-- Modelled from the spec: `DomUtils::floatFromDom(element, attribute,
defaultValue)` of `domUtils.h` (not present under `src/`): returns the
attribute's value as a number, or the default if absent or unparsable.
The numeric string reader is the external collaborator `parse`. -/
def floatFromDom (parse : String → Option ℚ) (element : QDomElement)
    (attrName : String) (defValue : ℚ) : ℚ :=
  match element.attr attrName with
  | none => defValue
  | some s =>
    match parse s with
    | none => defValue
    | some q => q

/-- Indexed component write `v_[i] = q` (the spec's dual named/indexed
access: index 0/1/2 aliases x/y/z; an out-of-range index is never used by
the code). -/
def Vec.setComp (v : Vec) (i : Nat) (q : ℚ) : Vec :=
  match i with
  | 0 => ⟨q, v.y, v.z⟩
  | 1 => ⟨v.x, q, v.z⟩
  | 2 => ⟨v.x, v.y, q⟩
  | _ => v

/-- The attribute-name list built by `Vec::Vec(const QDomElement&)`. -/
def attrNames : List String :=
  ["x", "y", "z"]

/-- The constructor `Vec::Vec(const QDomElement&)` (`vec.cpp`): for each
`i` below the attribute-list size, `v_[i] = floatFromDom(element,
attribute[i], 0.0)`.  `init` stands for the uninitialized components the
constructor starts from. -/
def vecFromDom (parse : String → Option ℚ) (element : QDomElement)
    (init : Vec) : Vec :=
  (List.range attrNames.length).foldl
    (fun v i => Vec.setComp v i (floatFromDom parse element (attrNames.getD i "") 0))
    init

/-- `Vec::initFromDOMElement` (`vec.cpp`): constructs `const Vec
v(element)` and assigns `*this = v`.  `this` is the pre-existing vector
being overwritten; `init` is the fresh constructor's uninitialized
state. -/
def initFromDOMElement (parse : String → Option ℚ) (init this : Vec)
    (element : QDomElement) : Vec :=
  vecFromDom parse element init

/-- `Vec::domElement(name, document)` (`vec.cpp`): creates an element with
tag `name` and sets attributes `x`, `y`, `z` to the formatted components.
The numeric formatter `fmt` is the external collaborator
(`QString::number`). -/
def Vec.domElement (fmt : ℚ → String) (v : Vec) (name : String)
    (document : QDomDocument) : QDomElement :=
  (((document.createElement name).setAttr "x" (fmt v.x)).setAttr "y"
      (fmt v.y)).setAttr "z" (fmt v.z)

/-- One `operator<<(ostream&, const char*)`-style string insertion:
appends the written text to the stream contents. -/
def ostreamStr (o s : String) : String :=
  o ++ s

/-- One `operator<<(ostream&, char)` insertion: appends a single
character to the stream contents. -/
def ostreamChar (o : String) (c : Char) : String :=
  o.push c

/-- The stream output `operator<<(ostream&, const Vec&)` (`vec.cpp`):
`o << v.x << '\t' << v.y << '\t' << v.z`, as the successive insertions
the expression performs.  The numeric formatter `fmt` is the external
collaborator (the ostream rendering of a `qreal`). -/
def vecOstream (fmt : ℚ → String) (o : String) (v : Vec) : String :=
  ostreamStr
    (ostreamChar (ostreamStr (ostreamChar (ostreamStr o (fmt v.x)) '\t') (fmt v.y)) '\t')
    (fmt v.z)

/-- State passed through a call to `Vec::projectOnAxis`: the receiver
`*this` together with the `const Vec& direction` argument, so that the
effect on both variables is explicit. -/
def projectOnAxisCall (s : Vec × Vec) : Vec × Vec :=
  (Vec.projectOnAxis s.1 s.2, s.2)

/-- State passed through a call to `Vec::projectOnPlane`: the receiver
`*this` together with the `const Vec& normal` argument. -/
def projectOnPlaneCall (s : Vec × Vec) : Vec × Vec :=
  (Vec.projectOnPlane s.1 s.2, s.2)

/-- State passed through a call to the const method `Vec::domElement`:
the returned element together with the receiver, whose components the
method only reads. -/
def domElementCall (fmt : ℚ → String) (v : Vec) (name : String)
    (document : QDomDocument) : QDomElement × Vec :=
  (Vec.domElement fmt v name document, v)

/-- An attribute is absent or not parseable as a number. -/
def attrBad (parse : String → Option ℚ) (e : QDomElement)
    (name : String) : Prop :=
  e.attr name = none ∨ ∃ s, e.attr name = some s ∧ parse s = none

lemma vecFromDom_eq (parse : String → Option ℚ) (element : QDomElement)
    (init : Vec) :
    vecFromDom parse element init =
      ⟨floatFromDom parse element "x" 0, floatFromDom parse element "y" 0,
       floatFromDom parse element "z" 0⟩ := by
  cases init
  rfl

lemma attrBad_floatFromDom {parse : String → Option ℚ} {e : QDomElement}
    {name : String} (h : attrBad parse e name) (d : ℚ) :
    floatFromDom parse e name d = d := by
  rcases h with h | ⟨s, hs, hp⟩
  · simp [floatFromDom, h]
  · simp [floatFromDom, hs, hp]

lemma epsilon_pos : 0 < epsilon := by norm_num [epsilon]

lemma squaredNorm_ne_zero {d : Vec} (h : epsilon < Vec.squaredNorm d) :
    Vec.squaredNorm d ≠ 0 :=
  ne_of_gt (lt_trans epsilon_pos h)

/-- C1.  For every vector `v` and direction `d` with squared norm exceeding
`1e-10`, `projectOnAxis` replaces `v` by `((v·d) / (d·d)) * d`, and that
value is the orthogonal projection of `v` onto the line spanned by `d`:
it is a scalar multiple of `d` and the residual is orthogonal to `d`. -/
theorem projectOnAxis_spec (v d : Vec) (h : epsilon < Vec.squaredNorm d) :
    Vec.projectOnAxis v d = Vec.smul (Vec.dot v d / Vec.squaredNorm d) d ∧
    (∃ t : ℚ, Vec.projectOnAxis v d = Vec.smul t d) ∧
    Vec.dot (Vec.sub v (Vec.projectOnAxis v d)) d = 0 := by
  have hn : Vec.squaredNorm d ≠ 0 := squaredNorm_ne_zero h
  refine ⟨rfl, ⟨Vec.dot v d / Vec.squaredNorm d, rfl⟩, ?_⟩
  simp only [Vec.projectOnAxis, Vec.dot, Vec.sub, Vec.smul, Vec.squaredNorm] at *
  field_simp
  ring

/-- C1 witness: `Vec{1,2,3}.projectOnAxis(Vec{1,0,0})` yields `{1,0,0}`. -/
theorem projectOnAxis_spec_witness :
    epsilon < Vec.squaredNorm ⟨1, 0, 0⟩ ∧
    Vec.projectOnAxis ⟨1, 2, 3⟩ ⟨1, 0, 0⟩ = ⟨1, 0, 0⟩ := by
  have hd : epsilon < Vec.squaredNorm ⟨1, 0, 0⟩ := by
    norm_num [epsilon, Vec.squaredNorm, Vec.dot]
  refine ⟨hd, ?_⟩
  rw [(projectOnAxis_spec ⟨1, 2, 3⟩ ⟨1, 0, 0⟩ hd).1]
  ext <;> norm_num [Vec.smul, Vec.dot, Vec.squaredNorm]

/-- C2.  For every vector `v` and normal `n` with squared norm exceeding
`1e-10`, `projectOnPlane` replaces `v` by `v − ((v·n) / (n·n)) * n`, and
that value has no component along `n`: the result is orthogonal to `n`
and the removed part `v − result` is a scalar multiple of `n`. -/
theorem projectOnPlane_spec (v n : Vec) (h : epsilon < Vec.squaredNorm n) :
    Vec.projectOnPlane v n =
      Vec.sub v (Vec.smul (Vec.dot v n / Vec.squaredNorm n) n) ∧
    Vec.dot (Vec.projectOnPlane v n) n = 0 ∧
    (∃ t : ℚ, Vec.sub v (Vec.projectOnPlane v n) = Vec.smul t n) := by
  have hn : Vec.squaredNorm n ≠ 0 := squaredNorm_ne_zero h
  refine ⟨rfl, ?_, ⟨Vec.dot v n / Vec.squaredNorm n, ?_⟩⟩
  · simp only [Vec.projectOnPlane, Vec.dot, Vec.sub, Vec.smul, Vec.squaredNorm] at *
    field_simp
    ring
  · simp only [Vec.projectOnPlane, Vec.sub, Vec.smul]
    ext <;> ring

/-- C2 witness: `Vec{1,1,1}.projectOnPlane(Vec{0,0,1})` yields `{1,1,0}`. -/
theorem projectOnPlane_spec_witness :
    epsilon < Vec.squaredNorm ⟨0, 0, 1⟩ ∧
    Vec.projectOnPlane ⟨1, 1, 1⟩ ⟨0, 0, 1⟩ = ⟨1, 1, 0⟩ := by
  have hn : epsilon < Vec.squaredNorm ⟨0, 0, 1⟩ := by
    norm_num [epsilon, Vec.squaredNorm, Vec.dot]
  refine ⟨hn, ?_⟩
  rw [(projectOnPlane_spec ⟨1, 1, 1⟩ ⟨0, 0, 1⟩ hn).1]
  ext <;> norm_num [Vec.sub, Vec.smul, Vec.dot, Vec.squaredNorm]

/-- C8.  Idempotence on the axis: a vector already of the form `t*d`, for a
non-degenerate direction `d`, is left unchanged by `projectOnAxis d`
(exactly, in the rational model). -/
theorem projectOnAxis_idem (v d : Vec) (t : ℚ)
    (h : epsilon < Vec.squaredNorm d) (hv : v = Vec.smul t d) :
    Vec.projectOnAxis v d = v := by
  have hn : Vec.squaredNorm d ≠ 0 := squaredNorm_ne_zero h
  subst hv
  simp only [Vec.projectOnAxis, Vec.dot, Vec.smul, Vec.squaredNorm] at *
  ext <;> field_simp <;> ring

/-- C8 witness: `{2,0,0} = 2 * {1,0,0}` projects onto `{1,0,0}` to itself. -/
theorem projectOnAxis_idem_witness :
    epsilon < Vec.squaredNorm ⟨1, 0, 0⟩ ∧
    (⟨2, 0, 0⟩ : Vec) = Vec.smul 2 ⟨1, 0, 0⟩ ∧
    Vec.projectOnAxis ⟨2, 0, 0⟩ ⟨1, 0, 0⟩ = ⟨2, 0, 0⟩ := by
  have hd : epsilon < Vec.squaredNorm ⟨1, 0, 0⟩ := by
    norm_num [epsilon, Vec.squaredNorm, Vec.dot]
  have hv : (⟨2, 0, 0⟩ : Vec) = Vec.smul 2 ⟨1, 0, 0⟩ := by
    ext <;> norm_num [Vec.smul]
  exact ⟨hd, hv, projectOnAxis_idem ⟨2, 0, 0⟩ ⟨1, 0, 0⟩ 2 hd hv⟩

/-- C5.  Both projections are total functions (they never abort, throw or
return an error: the result type is `Vec`, not an error-carrying type).
In the debug build the computed vector is exactly the release-build
result — the degenerate division is executed unguarded in both — and a
diagnostic, carrying the offending argument's squared norm (whose square
root is the printed norm), is emitted exactly when the argument's squared
norm is below `1e-10`.  In the release build (`QT_NO_DEBUG` defined) the
diagnostic block is compiled out, so no diagnostic exists at all. -/
theorem projection_degenerate_policy (v d : Vec) :
    (Vec.projectOnAxisDebug v d).1 = Vec.projectOnAxis v d ∧
    (Vec.projectOnPlaneDebug v d).1 = Vec.projectOnPlane v d ∧
    (Vec.projectOnAxisDebug v d).2 =
      (if Vec.squaredNorm d < epsilon then [Vec.squaredNorm d] else []) ∧
    (Vec.projectOnPlaneDebug v d).2 =
      (if Vec.squaredNorm d < epsilon then [Vec.squaredNorm d] else []) ∧
    Vec.projectOnAxis v d =
      Vec.smul (Vec.dot v d / Vec.squaredNorm d) d ∧
    Vec.projectOnPlane v d =
      Vec.sub v (Vec.smul (Vec.dot v d / Vec.squaredNorm d) d) :=
  ⟨rfl, rfl, rfl, rfl, rfl, rfl⟩

/-- C3.  Round-trip of the serialization contract: whenever the external
numeric formatter and reader round-trip on the three components (the
claim's "up to the precision of the decimal formatting" proviso),
constructing a Vec from the element produced by `domElement` reproduces
the original vector exactly, for every tag name, document, and
uninitialized constructor state. -/
theorem domElement_roundtrip (fmt : ℚ → String) (parse : String → Option ℚ)
    (v : Vec) (name : String) (document : QDomDocument) (init : Vec)
    (hx : parse (fmt v.x) = some v.x) (hy : parse (fmt v.y) = some v.y)
    (hz : parse (fmt v.z) = some v.z) :
    vecFromDom parse (Vec.domElement fmt v name document) init = v := by
  rw [vecFromDom_eq]
  have ax : (Vec.domElement fmt v name document).attr "x" = some (fmt v.x) := rfl
  have ay : (Vec.domElement fmt v name document).attr "y" = some (fmt v.y) := rfl
  have az : (Vec.domElement fmt v name document).attr "z" = some (fmt v.z) := rfl
  simp [floatFromDom, ax, ay, az, hx, hy, hz]

/-- Demonstration formatter used only by concrete witnesses, standing in
for an external decimal formatter on the few values they use. -/
def demoFmt (q : ℚ) : String :=
  if q = 0 then "0"
  else if q = 1 then "1"
  else if q = 2 then "2"
  else if q = 3 then "3"
  else "?"

/-- Demonstration numeric reader used only by concrete witnesses; `"?"`
and any unknown string are unparsable. -/
def demoParse (s : String) : Option ℚ :=
  if s = "0" then some 0
  else if s = "1" then some 1
  else if s = "2" then some 2
  else if s = "3" then some 3
  else none

/-- C3 witness: the vector `{1,2,3}` round-trips through an element with
tag `pos` under the demonstration formatter/reader pair. -/
theorem domElement_roundtrip_witness :
    demoParse (demoFmt (Vec.x ⟨1, 2, 3⟩)) = some (Vec.x ⟨1, 2, 3⟩) ∧
    demoParse (demoFmt (Vec.y ⟨1, 2, 3⟩)) = some (Vec.y ⟨1, 2, 3⟩) ∧
    demoParse (demoFmt (Vec.z ⟨1, 2, 3⟩)) = some (Vec.z ⟨1, 2, 3⟩) ∧
    vecFromDom demoParse
      (Vec.domElement demoFmt ⟨1, 2, 3⟩ "pos" ⟨"doc"⟩) ⟨0, 0, 0⟩ = ⟨1, 2, 3⟩ := by
  have hx : demoParse (demoFmt (Vec.x ⟨1, 2, 3⟩)) = some (Vec.x ⟨1, 2, 3⟩) := by
    decide
  have hy : demoParse (demoFmt (Vec.y ⟨1, 2, 3⟩)) = some (Vec.y ⟨1, 2, 3⟩) := by
    decide
  have hz : demoParse (demoFmt (Vec.z ⟨1, 2, 3⟩)) = some (Vec.z ⟨1, 2, 3⟩) := by
    decide
  exact ⟨hx, hy, hz,
    domElement_roundtrip demoFmt demoParse ⟨1, 2, 3⟩ "pos" ⟨"doc"⟩ ⟨0, 0, 0⟩ hx hy hz⟩

/-- C4.  For every attributed element, constructing a Vec never fails (the
function is total) and each of the three components is read independently
from its own attribute; for each of the three attributes `x`, `y`, `z`
independently, if that attribute is absent or not parseable the
corresponding single component is `0.0` while the others are unaffected;
in particular an element whose `y` attribute is bad yields `y = 0.0` with
`x` and `z` still read from the element by the usual attribute lookup. -/
theorem vecFromDom_fallback (parse : String → Option ℚ) (e : QDomElement)
    (init : Vec) :
    vecFromDom parse e init =
      ⟨floatFromDom parse e "x" 0, floatFromDom parse e "y" 0,
       floatFromDom parse e "z" 0⟩ ∧
    (attrBad parse e "x" → (vecFromDom parse e init).x = 0) ∧
    (attrBad parse e "y" → (vecFromDom parse e init).y = 0) ∧
    (attrBad parse e "z" → (vecFromDom parse e init).z = 0) ∧
    (attrBad parse e "y" →
      vecFromDom parse e init =
        ⟨floatFromDom parse e "x" 0, 0, floatFromDom parse e "z" 0⟩) := by
  refine ⟨vecFromDom_eq parse e init, ?_, ?_, ?_, ?_⟩
  · intro hx
    rw [vecFromDom_eq]
    exact attrBad_floatFromDom hx 0
  · intro hy
    rw [vecFromDom_eq]
    exact attrBad_floatFromDom hy 0
  · intro hz
    rw [vecFromDom_eq]
    exact attrBad_floatFromDom hz 0
  · intro hy
    rw [vecFromDom_eq, attrBad_floatFromDom hy]

/-- C4 witness: an element carrying only `x="1"` and `z="3"` (no `y`)
yields the vector `{1, 0, 3}` whatever the uninitialized state was. -/
theorem vecFromDom_fallback_witness :
    attrBad demoParse ⟨"pos", [("x", "1"), ("z", "3")]⟩ "y" ∧
    vecFromDom demoParse ⟨"pos", [("x", "1"), ("z", "3")]⟩ ⟨7, 7, 7⟩ =
      ⟨1, 0, 3⟩ := by
  have h : attrBad demoParse ⟨"pos", [("x", "1"), ("z", "3")]⟩ "y" :=
    Or.inl rfl
  refine ⟨h, ?_⟩
  rw [(vecFromDom_fallback demoParse ⟨"pos", [("x", "1"), ("z", "3")]⟩ ⟨7, 7, 7⟩).2.2.2.2 h]
  have ax : QDomElement.attr ⟨"pos", [("x", "1"), ("z", "3")]⟩ "x" = some "1" := rfl
  have az : QDomElement.attr ⟨"pos", [("x", "1"), ("z", "3")]⟩ "z" = some "3" := rfl
  ext <;> simp only [floatFromDom, ax, az] <;> decide

/-- C6.  `initFromDOMElement` is equivalent to constructing a fresh Vec
from the element and copy-assigning it into the target: for every reader,
element, pre-existing vector and any uninitialized constructor states,
the two paths produce the same final value (in particular the result is
independent of the pre-existing vector and of the uninitialized state). -/
theorem initFromDOMElement_equiv (parse : String → Option ℚ)
    (element : QDomElement) (a b this : Vec) :
    initFromDOMElement parse a this element = vecFromDom parse element b := by
  rw [initFromDOMElement, vecFromDom_eq, vecFromDom_eq]

/-- C9.  The stream output writes exactly the three components in the
order x, y, z, separated by single horizontal-tab characters: the final
stream is the original contents followed by `fmt x`, one tab, `fmt y`,
one tab, `fmt z` — in particular no trailing separator and no enclosing
brackets are ever written. -/
theorem vecOstream_format (fmt : ℚ → String) (o : String) (v : Vec) :
    vecOstream fmt o v =
      o ++ fmt v.x ++ "\t" ++ fmt v.y ++ "\t" ++ fmt v.z := by
  apply String.ext
  simp [vecOstream, ostreamStr, ostreamChar, String.data_append, String.data_push]

/-- C10.  Frame conditions of the const interfaces: `projectOnAxis` and
`projectOnPlane` assign only to `*this` and leave the `const Vec&`
direction/normal argument unchanged, and the const method `domElement`
leaves the receiving vector unchanged while building the element purely
from reads of its components. -/
theorem const_frame_conditions (fmt : ℚ → String) (v d : Vec)
    (name : String) (document : QDomDocument) :
    (projectOnAxisCall (v, d)).2 = d ∧
    (projectOnPlaneCall (v, d)).2 = d ∧
    (domElementCall fmt v name document).2 = v ∧
    (domElementCall fmt v name document).1 =
      Vec.domElement fmt v name document :=
  ⟨rfl, rfl, rfl, rfl⟩

end QGLViewerVec
